import Mathlib

/-!
Verification of `src/hello_wasm/main.c`.

The source defines two C functions:

* `say_hello` (exported via `EMSCRIPTEN_KEEPALIVE`): calls
  `printf("Hello, World from WebAssembly!\n")` and then
  `emscripten_run_script("console.log('Hello, World from WebAssembly!');")`.
* `main`: calls `printf("Hello, World (startup)\n")` and returns `0`.

We embed the program shallowly: each C statement of the file becomes a
command of a small straight-line language (the language has no branching or
looping constructor because the source contains none), and an interpreter
turns a command list into the list of observable effects, threading an
explicit program state.  The C file declares no global or static variable,
so the program state is a structure with no fields.
-/

/-- Observable effects of the program: a write to standard output, or a
request to the host script-evaluation facility (`emscripten_run_script`). -/
inductive Effect where
  | stdoutWrite : String → Effect
  | runScript : String → Effect
deriving DecidableEq

/-- Returns `true` exactly on host script-evaluation requests. -/
def Effect.isScript : Effect → Bool
  | Effect.runScript _ => true
  | Effect.stdoutWrite _ => false

/-- The statement forms occurring in `main.c`: a `printf` call and an
`emscripten_run_script` call.  There is no constructor for branches,
loops or retries, mirroring the straight-line source. -/
inductive Cmd where
  | printf : String → Cmd
  | emscripten_run_script : String → Cmd
deriving DecidableEq

/-- Program state of `main.c`.  The file declares no global or static
variable, so the state has no fields. -/
structure PState where
deriving DecidableEq

/-- One step: executing a single C statement yields the unchanged state and
one observable effect (`printf` writes to standard output,
`emscripten_run_script` issues a host script-evaluation request). -/
def execCmd : Cmd → PState → PState × Effect
  | Cmd.printf s, st => (st, Effect.stdoutWrite s)
  | Cmd.emscripten_run_script s, st => (st, Effect.runScript s)

/-- Executing a command list in order, threading the state and collecting
the effects in execution order. -/
def execBody : List Cmd → PState → PState × List Effect
  | [], st => (st, [])
  | c :: cs, st =>
    let p1 := execCmd c st
    let p2 := execBody cs p1.1
    (p2.1, p1.2 :: p2.2)

/-- Error-monad form of `execCmd`: neither `printf` nor
`emscripten_run_script` has its result checked in the source (the `printf`
return value is discarded and `emscripten_run_script` returns nothing), so
no statement of the file can enter an error branch. -/
def execCmdE (c : Cmd) (st : PState) : Except String (PState × Effect) :=
  Except.ok (execCmd c st)

/-- Error-monad form of `execBody`. -/
def execBodyE : List Cmd → PState → Except String (PState × List Effect)
  | [], st => Except.ok (st, [])
  | c :: cs, st => do
    let p1 ← execCmdE c st
    let p2 ← execBodyE cs p1.1
    Except.ok (p2.1, p1.2 :: p2.2)

/-- The body of `say_hello` (main.c lines 5-8): the two calls, in source
order, with the literal strings of the source. -/
def say_hello_body : List Cmd :=
  [Cmd.printf "Hello, World from WebAssembly!\n",
   Cmd.emscripten_run_script "console.log(\x27Hello, World from WebAssembly!\x27);"]

/-- The C function `say_hello` (main.c lines 4-8): executes its body; it is
declared `void say_hello(void)`, so it takes no argument and its return
value is the information-free `Unit`. -/
def say_hello (st : PState) : PState × List Effect × Unit :=
  let p := execBody say_hello_body st
  (p.1, p.2, ())

/-- The body of `main` (main.c lines 10-13): the single `printf` call. -/
def main_body : List Cmd :=
  [Cmd.printf "Hello, World (startup)\n"]

/-- The C function `main` (main.c lines 10-13): executes its body and
returns the exit status `0`. -/
def main_c (st : PState) : PState × List Effect × Int :=
  let p := execBody main_body st
  (p.1, p.2, 0)

/-- A process invocation with an argument vector: the C startup code calls
`main` exactly once; `main` is declared `int main(void)`, so the argument
vector is not consumed. -/
def run_process (_argv : List String) (st : PState) : PState × List Effect × Int :=
  main_c st

/-- `n` sequential invocations of `say_hello`, threading the state and
collecting each invocation's effect trace. -/
def run_say_hello_n : Nat → PState → PState × List (List Effect)
  | 0, st => (st, [])
  | Nat.succ n, st =>
    let p1 := say_hello st
    let p2 := run_say_hello_n n p1.1
    (p2.1, p1.2.1 :: p2.2)

/-- The greeting text shared by the two sinks of `say_hello`. -/
def greeting : String := "Hello, World from WebAssembly!"

/-- The effect trace of one `say_hello` invocation. -/
def helloTrace : List Effect :=
  [Effect.stdoutWrite "Hello, World from WebAssembly!\n",
   Effect.runScript "console.log(\x27Hello, World from WebAssembly!\x27);"]

/-- C1: `say_hello` writes exactly one standard-output line, the literal
greeting followed by a line terminator, then issues exactly one host
script-evaluation request with the exact script text, in that order, with
no other observable effect, no state change and no returned information. -/
theorem say_hello_effects (st : PState) :
    say_hello st =
      (st,
       [Effect.stdoutWrite ("Hello, World from WebAssembly!" ++ "\n"),
        Effect.runScript "console.log(\x27Hello, World from WebAssembly!\x27);"],
       ()) := by
  rfl

/-- C2: `main` writes exactly one standard-output line, the literal startup
text followed by a line terminator, changes no state, and terminates with
the successful exit status `0`; a process invocation runs it exactly once,
unconditionally, whatever the argument vector. -/
theorem main_effects (argv : List String) (st : PState) :
    run_process argv st =
      (st, [Effect.stdoutWrite ("Hello, World (startup)" ++ "\n")], 0) := by
  rfl

/-- C3: for every number `n` of sequential invocations, each call to
`say_hello` produces the identical effect trace, and the final state equals
the initial state: no call changes any program state. -/
theorem say_hello_repeat (n : Nat) (st : PState) :
    run_say_hello_n n st = (st, List.replicate n helloTrace) := by
  induction n generalizing st with
  | zero => rfl
  | succ n ih =>
    simp [run_say_hello_n, say_hello, execBody, execCmd, say_hello_body,
      helloTrace, List.replicate, ih]

/-- C4: two runs of the process entry point, with arbitrary argument
vectors and arbitrary states, have identical observable behavior: the same
effect trace and the same successful exit status. -/
theorem run_process_deterministic (argv argv' : List String) (st st' : PState) :
    (run_process argv st).2 = (run_process argv' st').2 ∧
      (run_process argv st).2.2 = 0 := by
  exact ⟨rfl, rfl⟩

/-- C5: without any host invocation of `say_hello`, the process produces
exactly the single startup line and nothing else: `main` emits no host
script-evaluation request and none of the effects of `say_hello`. -/
theorem main_frame (st : PState) :
    (main_c st).2.1 = [Effect.stdoutWrite ("Hello, World (startup)" ++ "\n")] ∧
      (main_c st).2.1.filter Effect.isScript = [] ∧
      (say_hello st).2.1.filter (fun e => (main_c st).2.1.contains e) = [] := by
  exact ⟨rfl, rfl, rfl⟩

/-- C6: `say_hello` consumes no argument and produces no information in its
return value (it is `Unit`), its effect trace is identical for any two
states, and it leaves the state unchanged: its behavior cannot depend on
any caller-supplied input. -/
theorem say_hello_void (st st' : PState) :
    (say_hello st).2.2 = () ∧
      (say_hello st).2.1 = (say_hello st').2.1 ∧
      (say_hello st).1 = st := by
  exact ⟨rfl, rfl, rfl⟩

/-- C7: in the error-monad embedding, executing the body of `say_hello` or
of `main` always succeeds: the error branch is never taken, and the result
is exactly the successful pure execution. -/
theorem no_error_branch (st : PState) :
    execBodyE say_hello_body st = Except.ok (execBody say_hello_body st) ∧
      execBodyE main_body st = Except.ok (execBody main_body st) ∧
      (execBodyE say_hello_body st).isOk = true ∧
      (execBodyE main_body st).isOk = true := by
  exact ⟨rfl, rfl, rfl, rfl⟩

/-- C8: execution of any straight-line command list terminates and performs
each command exactly once (one effect per command, no branching, looping or
retry); the bodies of `say_hello` and `main` have two and one commands. -/
theorem straight_line_terminates :
    (∀ (cs : List Cmd) (st : PState), (execBody cs st).2.length = cs.length) ∧
      say_hello_body.length = 2 ∧ main_body.length = 1 := by
  refine ⟨fun cs => ?_, rfl, rfl⟩
  induction cs with
  | nil => intro st; rfl
  | cons c cs ih => intro st; simp [execBody, ih]

/-- C9: in one invocation of `say_hello`, the standard-output line without
its terminator is character-for-character the string literal inside the
`console.log` call of the script passed to the host: both effects carry the
same `greeting`. -/
theorem stdout_matches_script (st : PState) :
    (say_hello st).2.1 =
      [Effect.stdoutWrite (greeting ++ "\n"),
       Effect.runScript ("console.log(\x27" ++ greeting ++ "\x27);")] := by
  rfl

/-- C10: the program holds no mutable state: the program state type has a
single value, both `say_hello` and `main` return their input state
unchanged, and the observable behavior of each is independent of the
incoming state, hence of which operations ran before and how often. -/
theorem stateless_invariant (st st' : PState) :
    st = st' ∧
      (say_hello st).1 = st ∧ (main_c st).1 = st ∧
      (say_hello st).2 = (say_hello st').2 ∧
      (main_c st).2 = (main_c st').2 := by
  exact ⟨rfl, rfl, rfl, rfl, rfl⟩
